import Mathlib

/-!
Verification of the deuce-client block-assignment core.

This file gives a shallow embedding, in Lean 4, of the parts of the
deuce-client Python library that carry the consistency model:

* `Block.make_id` (`deuceclient/api/block.py`), modelled as a full SHA-1
  implementation over byte lists followed by lowercase hex encoding;
* `Block.__len__` (`pyLen`);
* the `Vault.status` property getter and setter (`deuceclient/api/vault.py`);
* the `FileSplitterBase.input_stream` setter and `get_blocks`
  (`deuceclient/api/splitter.py`);
* `DeuceClient.AssignBlocksToFile` (`deuceclient/client/deuce.py`), split as
  in the source into the validation stage, the payload-construction stage
  and the network stage (the server is an explicit function parameter).

Python dictionaries are modelled as association lists in insertion order:
`dlookup` is `d[k]` (first match), `dmem` is `k in d`, `List.length` is
`len(d)` and the list itself is `d.items()`.
-/

set_option maxRecDepth 100000

namespace DeuceModel

/-- Lookup in a Python-dict model (association list, first match wins). -/
def dlookup {K V : Type} [DecidableEq K] : List (K × V) → K → Option V
  | [], _ => none
  | (k', v) :: rest, k => if k = k' then some v else dlookup rest k

/-- Membership test `k in d` on the dict model. -/
def dmem {K V : Type} [DecidableEq K] (d : List (K × V)) (k : K) : Bool :=
  (dlookup d k).isSome

/-! ### Block (`deuceclient/api/block.py`) -/

/-- A `deuceclient.api.Block`: ids and raw data; `data` may be absent for a
block known only by id. -/
structure Block where
  project_id : String
  vault_id : String
  block_id : String
  storage_id : Option String
  data : Option (List Nat)
  ref_count : Option Nat
  ref_modified : Option Nat
deriving DecidableEq, Repr

/-- `Block.__len__`: 0 when `data` is `None`, else `len(data)`. -/
def pyLen (b : Block) : Nat :=
  match b.data with
  | none => 0
  | some d => d.length

/-! ### SHA-1 (model of `hashlib.sha1`, used by `Block.make_id`) -/

/-- Truncation to a 32-bit word. -/
def w32 (n : Nat) : Nat := n % 4294967296

/-- Left rotation of a 32-bit word by `k` bits (for `n < 2^32`). -/
def rotl (k n : Nat) : Nat := w32 (n * 2 ^ k + n / 2 ^ (32 - k))

/-- Bitwise complement of a 32-bit word. -/
def wnot (n : Nat) : Nat := Nat.xor n 4294967295

/-- The SHA-1 round function `f_t`. -/
def sha1F (t b c d : Nat) : Nat :=
  if t < 20 then Nat.lor (Nat.land b c) (Nat.land (wnot b) d)
  else if t < 40 then Nat.xor (Nat.xor b c) d
  else if t < 60 then Nat.lor (Nat.lor (Nat.land b c) (Nat.land b d)) (Nat.land c d)
  else Nat.xor (Nat.xor b c) d

/-- The SHA-1 round constant `K_t`. -/
def sha1K (t : Nat) : Nat :=
  if t < 20 then 0x5A827999
  else if t < 40 then 0x6ED9EBA1
  else if t < 60 then 0x8F1BBCDC
  else 0xCA62C1D6

/-- Big-endian 64-bit encoding of a length in bits. -/
def lenBytes64 (n : Nat) : List Nat :=
  [n / 2 ^ 56 % 256, n / 2 ^ 48 % 256, n / 2 ^ 40 % 256, n / 2 ^ 32 % 256,
   n / 2 ^ 24 % 256, n / 2 ^ 16 % 256, n / 2 ^ 8 % 256, n % 256]

/-- SHA-1 message padding: append `0x80`, zero bytes to 56 mod 64, then the
bit length as a big-endian 64-bit integer. -/
def sha1Pad (msg : List Nat) : List Nat :=
  msg ++ 128 :: (List.replicate ((119 - msg.length % 64) % 64) 0
    ++ lenBytes64 (8 * msg.length))

/-- Split a byte list into 64-byte chunks (the fuel, always at least the
list length, makes the recursion structural). -/
def chunk64Aux : Nat → List Nat → List (List Nat)
  | 0, _ => []
  | _ + 1, [] => []
  | n + 1, b :: rest => ((b :: rest).take 64) :: chunk64Aux n ((b :: rest).drop 64)

/-- Split a byte list into 64-byte chunks. -/
def chunk64 (l : List Nat) : List (List Nat) := chunk64Aux l.length l

/-- Big-endian 32-bit words from bytes. -/
def bytesToWords : List Nat → List Nat
  | b0 :: b1 :: b2 :: b3 :: rest =>
      (b0 * 2 ^ 24 + b1 * 2 ^ 16 + b2 * 2 ^ 8 + b3) :: bytesToWords rest
  | _ => []

/-- Extend the message schedule; `acc` holds the words most-recent-first. -/
def extendSchedule : Nat → List Nat → List Nat
  | 0, acc => acc
  | n + 1, acc =>
    let w := rotl 1 (Nat.xor (Nat.xor (acc.getD 2 0) (acc.getD 7 0))
                             (Nat.xor (acc.getD 13 0) (acc.getD 15 0)))
    extendSchedule n (w :: acc)

/-- The 80-word SHA-1 message schedule from the 16 chunk words. -/
def sha1Schedule (ws : List Nat) : List Nat :=
  (extendSchedule 64 ws.reverse).reverse

/-- The five-word SHA-1 working state. -/
structure SHA1State where
  a : Nat
  b : Nat
  c : Nat
  d : Nat
  e : Nat
deriving DecidableEq, Repr

/-- One SHA-1 round, taking `(t, W_t)`. -/
def sha1Round (st : SHA1State) (tw : Nat × Nat) : SHA1State :=
  let temp := w32 (rotl 5 st.a + sha1F tw.1 st.b st.c st.d + st.e
    + sha1K tw.1 + tw.2)
  ⟨temp, st.a, rotl 30 st.b, st.c, st.d⟩

/-- Compress one 64-byte chunk into the running state. -/
def sha1Compress (h : SHA1State) (chunk : List Nat) : SHA1State :=
  let st := (sha1Schedule (bytesToWords chunk)).enum.foldl sha1Round h
  ⟨w32 (h.a + st.a), w32 (h.b + st.b), w32 (h.c + st.c),
   w32 (h.d + st.d), w32 (h.e + st.e)⟩

/-- The SHA-1 initial state. -/
def sha1Init : SHA1State :=
  ⟨0x67452301, 0xEFCDAB89, 0x98BADCFE, 0x10325476, 0xC3D2E1F0⟩

/-- Big-endian bytes of a 32-bit word. -/
def wordBytes (n : Nat) : List Nat :=
  [n / 2 ^ 24 % 256, n / 2 ^ 16 % 256, n / 2 ^ 8 % 256, n % 256]

/-- SHA-1 of a byte list: the 20-byte digest. -/
def sha1 (msg : List Nat) : List Nat :=
  let st := (chunk64 (sha1Pad msg)).foldl sha1Compress sha1Init
  wordBytes st.a ++ wordBytes st.b ++ wordBytes st.c
    ++ wordBytes st.d ++ wordBytes st.e

/-- The hex digit character for a value below 16: `0`-`9` then `a`-`f`
(codepoints 48+n and 87+n respectively). -/
def hexChar (n : Nat) : Char :=
  if n < 10 then Char.ofNat (48 + n)
  else if n < 16 then Char.ofNat (87 + n)
  else Char.ofNat 48

/-- The sixteen hexadecimal digit characters, lowercase. -/
def hexDigits : List Char := (List.range 16).map hexChar

/-- Two hex characters for one byte. -/
def byteHex (n : Nat) : List Char := [hexChar (n / 16 % 16), hexChar (n % 16)]

/-- `hexdigest()`: lowercase hex string of a byte list. -/
def hexdigest (bytes : List Nat) : String := ⟨(bytes.map byteHex).flatten⟩

/-- Model of Python `str.lower` (per-character case mapping). -/
def pyStrLower (s : String) : String := ⟨s.data.map Char.toLower⟩

/-- `Block.make_id(data)`: `hashlib.sha1(data).hexdigest().lower()`. -/
def make_id (data : List Nat) : String := pyStrLower (hexdigest (sha1 data))

/-! ### File and Vault (`deuceclient/api/afile.py`, `deuceclient/api/vault.py`)

The `File` carries two parallel dicts: `blocks : block_id → Block` and
`offsets : byte-offset → block_id`. The `Vault` carries a `blocks` and a
`files` registry plus the internal `status` slot (initialised to `None`). -/

/-- A `deuceclient.api.File`: parallel block and offset registries. -/
structure File where
  project_id : String
  vault_id : String
  file_id : String
  blocks : List (String × Block)
  offsets : List (Nat × String)
deriving DecidableEq, Repr

/-- A Python value offered to the `Vault.status` setter. -/
inductive PyVal where
  | pynone : PyVal
  | pystr : String → PyVal
  | pyint : Int → PyVal
deriving DecidableEq, Repr

/-- A `deuceclient.api.Vault`: block and file registries plus the internal
status slot (`None` right after `__init__`). -/
structure Vault where
  project_id : String
  vault_id : String
  status : Option String
  blocks : List (String × Block)
  files : List (String × File)
deriving DecidableEq, Repr

/-- `Vault.__init__`: fresh registries, internal status slot `None`. -/
def vault_init (project_id vault_id : String) : Vault :=
  ⟨project_id, vault_id, none, [], []⟩

/-- The five accepted `Vault.status` strings. -/
def vaultStatusValues : List String :=
  ["unknown", "created", "deleted", "valid", "invalid"]

/-- The `Vault.status` setter: `None` stores `'unknown'`; a string whose
`.lower()` is one of the five accepted values stores that lowercased value;
anything else raises `ValueError` (a non-string hits `AttributeError` on
`.lower()`, which the source converts to the same `ValueError`). -/
def vault_status_set (v : Vault) (value : PyVal) : Except String Vault :=
  match value with
  | .pynone => .ok { v with status := some "unknown" }
  | .pystr s =>
    if pyStrLower s ∈ vaultStatusValues then
      .ok { v with status := some (pyStrLower s) }
    else
      .error "Invalid Vault Status Value"
  | .pyint _ => .error "Invalid Vault Status Value"

/-- The `Vault.status` getter: `'unknown'` while the slot is `None`. -/
def vault_status_get (v : Vault) : String := v.status.getD "unknown"

/-- The vault after a sequence of status assignments; an assignment that
raises leaves the stored status unchanged (the source raises before any
store). -/
def vault_status_after (v : Vault) (vals : List PyVal) : Vault :=
  vals.foldl (fun st val =>
    match vault_status_set st val with
    | .ok st' => st'
    | .error _ => st) v

/-! ### Splitter (`deuceclient/api/splitter.py`) -/

/-- A candidate input source for the splitter, recorded by which of the
duck-typed operations (`read`, `tell`) it exposes, with an identity tag. -/
structure PyStream where
  sid : Nat
  hasRead : Bool
  hasTell : Bool
deriving DecidableEq, Repr

/-- A `FileSplitterBase`: project/vault scope, current input stream, and the
state slot (`None` = idle, `some "processing"` once reading started). -/
structure FileSplitter where
  project_id : String
  vault_id : String
  input_stream : PyStream
  state : Option String
deriving DecidableEq, Repr

/-- The error raised by the `input_stream` setter. -/
inductive SplitterErr where
  | typeErr : SplitterErr
  | runtimeErr : SplitterErr
deriving DecidableEq, Repr

/-- The setter's inner capability probe: `getattr(input_io, 'read')` and
`getattr(input_io, 'tell')` must both succeed. -/
def splitter_has_read (io : PyStream) : Bool := io.hasRead && io.hasTell

/-- The `FileSplitterBase.input_stream` setter: while idle (`state is None`)
a source with both `read` and `tell` replaces the stream, one without raises
`TypeError`; in any other state it raises `RuntimeError`. Errors leave the
splitter unchanged. -/
def input_stream_set (sp : FileSplitter) (io : PyStream) :
    FileSplitter × Option SplitterErr :=
  if sp.state = none then
    if splitter_has_read io then ({ sp with input_stream := io }, none)
    else (sp, some SplitterErr.typeErr)
  else (sp, some SplitterErr.runtimeErr)

/-- The results of the first `n` calls to `get_block()`, threading the
underlying reader state: `get_block()` is abstract in the base class, so it
is modelled as a state-transition function returning an `(offset, block)`
tuple whose block component is `None` at end-of-stream. -/
def splitterReads {σ : Type} (step : σ → (Nat × Option Block) × σ) :
    Nat → σ → List (Nat × Option Block) × σ
  | 0, s => ([], s)
  | n + 1, s =>
    let r := step s
    let rest := splitterReads step n r.2
    (r.1 :: rest.1, rest.2)

/-- `FileSplitterBase.get_blocks(count)`: evaluates
`[self.get_block() for _ in range(count)]` — always exactly `count` calls —
and keeps, in order, the tuples whose block component is not `None`. -/
def get_blocks {σ : Type} (step : σ → (Nat × Option Block) × σ) :
    Nat → σ → List (Nat × Option Block) × σ
  | 0, s => ([], s)
  | n + 1, s =>
    let r := step s
    let rest := get_blocks step n r.2
    ((if r.1.2.isSome then [r.1] else []) ++ rest.1, rest.2)

/-- Modelled from the spec: the behaviour §4.2 ascribes to `get_blocks` —
"calls `get_block()` up to `count` times, stopping early the first time
end-of-stream is reached"; used to compare the code against the claim. -/
def get_blocks_spec {σ : Type} (step : σ → (Nat × Option Block) × σ) :
    Nat → σ → List (Nat × Option Block) × σ
  | 0, s => ([], s)
  | n + 1, s =>
    let r := step s
    match r.1.2 with
    | none => ([], r.2)
    | some _ =>
      let rest := get_blocks_spec step n r.2
      (r.1 :: rest.1, rest.2)

/-! ### AssignBlocksToFile (`deuceclient/client/deuce.py`) -/

/-- The first positional argument as Python sees it: either an actual
`Vault` or some other object (caught by the `isinstance` check). -/
inductive PyArg where
  | vaultArg : Vault → PyArg
  | nonVault : PyArg
deriving DecidableEq, Repr

/-- The distinct raise sites of the validation stage of
`AssignBlocksToFile`, by kind. -/
inductive AssignError where
  | vaultTypeError : AssignError
  | fileNotFound : String → AssignError
  | emptyBlockIds : AssignError
  | blockNotInVault : String → AssignError
  | blockNotInFile : String → AssignError
  | offsetNotAssigned : Nat → AssignError
  | offsetBlockMismatch : Nat → String → AssignError
  | fileOffsetsEmpty : AssignError
  | fileBlocksEmpty : AssignError
  | danglingOffset : String → AssignError
deriving DecidableEq, Repr

/-- The four nested checks the explicit-pairs loop performs on one
`(block_id, offset)` pair, in source order. -/
def checkPair (v : Vault) (f : File) (p : String × Nat) : Option AssignError :=
  if dmem v.blocks p.1 = false then some (AssignError.blockNotInVault p.1)
  else if dmem f.blocks p.1 = false then some (AssignError.blockNotInFile p.1)
  else if dmem f.offsets p.2 = false then some (AssignError.offsetNotAssigned p.2)
  else if dlookup f.offsets p.2 ≠ some p.1 then
    some (AssignError.offsetBlockMismatch p.2 p.1)
  else none

/-- The explicit-pairs validation loop: first failing pair raises. -/
def validatePairs (v : Vault) (f : File) :
    List (String × Nat) → Option AssignError
  | [] => none
  | p :: rest =>
    match checkPair v f p with
    | some e => some e
    | none => validatePairs v f rest

/-- The derive-from-file validation loop over `offsets.items()`: every
referenced block id must be in the file's block dict. -/
def validateOffsets (f : File) : List (Nat × String) → Option AssignError
  | [] => none
  | ob :: rest =>
    if dmem f.blocks ob.2 = false then some (AssignError.danglingOffset ob.2)
    else validateOffsets f rest

/-- The whole validation stage of `AssignBlocksToFile` (everything the
source does before building the request body). -/
def validateAssign (arg : PyArg) (file_id : String)
    (block_ids : Option (List (String × Nat))) : Option AssignError :=
  match arg with
  | .nonVault => some AssignError.vaultTypeError
  | .vaultArg v =>
    match dlookup v.files file_id with
    | none => some (AssignError.fileNotFound file_id)
    | some f =>
      match block_ids with
      | some pairs =>
        if pairs.length = 0 then some AssignError.emptyBlockIds
        else validatePairs v f pairs
      | none =>
        if f.offsets.length = 0 then some AssignError.fileOffsetsEmpty
        else if f.blocks.length = 0 then some AssignError.fileBlocksEmpty
        else validateOffsets f f.offsets

/-- One wire-payload entry `{id, offset, size}`. -/
structure AssignEntry where
  id : String
  offset : Nat
  size : Nat
deriving DecidableEq, Repr

/-- One payload entry: `size` is `len(file.blocks[block_id])`; `none`
models the `KeyError` a missing dict key would raise. -/
def entryFor (f : File) (bid : String) (off : Nat) : Option AssignEntry :=
  (dlookup f.blocks bid).map (fun blk => ⟨bid, off, pyLen blk⟩)

/-- Sequence a fallible function over a list, failing at the first failure
(the shape of a Python `for` loop whose body may raise `KeyError`). -/
def mapOption {α β : Type} (g : α → Option β) : List α → Option (List β)
  | [] => some []
  | a :: rest =>
    match g a with
    | none => none
    | some b =>
      match mapOption g rest with
      | none => none
      | some bs => some (b :: bs)

/-- The payload-construction stage: one entry per explicit pair in caller
order, or one entry per `offsets.items()` entry. -/
def buildPayload (f : File) (block_ids : Option (List (String × Nat))) :
    Option (List AssignEntry) :=
  match block_ids with
  | some pairs => mapOption (fun p => entryFor f p.1 p.2) pairs
  | none => mapOption (fun ob => entryFor f ob.2 ob.1) f.offsets

/-- The transport collaborator's answer to the POST. -/
structure ServerResp where
  status : Nat
  uploadIds : List String
deriving DecidableEq, Repr

/-- How a call to `AssignBlocksToFile` can fail. -/
inductive AssignFailure where
  | validationError : AssignError → AssignFailure
  | payloadKeyError : AssignFailure
  | serverError : Nat → AssignFailure
deriving DecidableEq, Repr

/-- The observable outcome of one `AssignBlocksToFile` call: the returned
value or exception, whether the network was contacted, and the vault object
afterwards. -/
structure AssignOutcome where
  result : Except AssignFailure (List String)
  networkCalled : Bool
  vaultAfter : PyArg

/-- `DeuceClient.AssignBlocksToFile`, with the transport passed in as
`server`: validate, build the payload, then (only on success so far) POST
and interpret a 200 as the list of block ids still to upload. -/
def AssignBlocksToFile (server : List AssignEntry → ServerResp)
    (arg : PyArg) (file_id : String)
    (block_ids : Option (List (String × Nat))) : AssignOutcome :=
  match validateAssign arg file_id block_ids with
  | some e => ⟨.error (.validationError e), false, arg⟩
  | none =>
    match arg with
    | .nonVault => ⟨.error (.validationError AssignError.vaultTypeError), false, arg⟩
    | .vaultArg v =>
      match dlookup v.files file_id with
      | none =>
        ⟨.error (.validationError (AssignError.fileNotFound file_id)), false, arg⟩
      | some f =>
        match buildPayload f block_ids with
        | none => ⟨.error AssignFailure.payloadKeyError, false, arg⟩
        | some payload =>
          let resp := server payload
          if resp.status = 200 then ⟨.ok resp.uploadIds, true, arg⟩
          else ⟨.error (.serverError resp.status), true, arg⟩

/-- `len(file.blocks[block_id])` as a total function; the default is never
reached once validation has passed. -/
def entrySize (f : File) (bid : String) : Nat :=
  pyLen ((dlookup f.blocks bid).getD ⟨"", "", "", none, none, none, none⟩)

/-! ### Concrete fixtures used by the witness and counterexample theorems -/

/-- A block with three bytes of data. -/
def blockA : Block := ⟨"p1", "v1", "bidA", none, some [10, 20, 30], none, none⟩

/-- A block known only by id (no data). -/
def blockB : Block := ⟨"p1", "v1", "bidB", none, none, none, none⟩

/-- A file holding `blockA` at offset 0 and `blockB` at offset 3. -/
def fileA : File :=
  ⟨"p1", "v1", "f1", [("bidA", blockA), ("bidB", blockB)],
   [(0, "bidA"), (3, "bidB")]⟩

/-- A vault whose registries hold both blocks and `fileA`. -/
def vaultA : Vault :=
  ⟨"p1", "v1", none, [("bidA", blockA), ("bidB", blockB)], [("f1", fileA)]⟩

/-- A transport stub that always answers 200 with an empty upload list. -/
def server200 : List AssignEntry → ServerResp := fun _ => ⟨200, []⟩

/-- A file with no blocks and no offsets. -/
def fileE : File := ⟨"p1", "v1", "fe", [], []⟩

/-- A vault holding only the empty file. -/
def vaultE : Vault := ⟨"p1", "v1", none, [], [("fe", fileE)]⟩

/-- A reader whose first call hits end-of-stream but whose second call
yields a block again (the stream grew between calls). -/
def stepX (s : Nat) : (Nat × Option Block) × Nat :=
  (([(0, none), (5, some blockA)].getD s (0, none)), s + 1)

/-- A well-behaved reader: one block, then end-of-stream forever. -/
def stepY (s : Nat) : (Nat × Option Block) × Nat :=
  (([(0, some blockA)].getD s (0, none)), s + 1)

/-- An idle splitter. -/
def splitterIdle : FileSplitter := ⟨"p1", "v1", ⟨0, true, true⟩, none⟩

/-- A splitter that has started reading. -/
def splitterBusy : FileSplitter := ⟨"p1", "v1", ⟨0, true, true⟩, some "processing"⟩

/-- A source exposing both `read` and `tell`. -/
def streamGood : PyStream := ⟨1, true, true⟩

/-- A source exposing `read` but not `tell`. -/
def streamBad : PyStream := ⟨2, true, false⟩

/-! ## Supporting lemmas -/

/-- The SHA-1 digest always has exactly 20 bytes. -/
theorem sha1_length (msg : List Nat) : (sha1 msg).length = 20 := by
  simp [sha1, wordBytes]

/-- Hex encoding doubles the byte count. -/
theorem hexFlatten_length (bytes : List Nat) :
    ((bytes.map byteHex).flatten).length = 2 * bytes.length := by
  induction bytes with
  | nil => rfl
  | cons b rest ih =>
    simp only [List.map_cons, List.flatten_cons, List.length_append, ih,
      List.length_cons, byteHex, List.length_cons, List.length_nil]
    omega

/-- Every value below 16 maps to one of the sixteen hex digit characters. -/
theorem hexChar_mem : ∀ n < 16, hexChar n ∈ hexDigits := by decide

/-- Every character of a hex encoding is a hex digit character. -/
theorem hexFlatten_mem (bytes : List Nat) :
    ∀ c ∈ (bytes.map byteHex).flatten, c ∈ hexDigits := by
  intro c hc
  obtain ⟨l, hl, hcl⟩ := List.mem_flatten.mp hc
  obtain ⟨b, _, rfl⟩ := List.mem_map.mp hl
  simp only [byteHex, List.mem_cons, List.not_mem_nil, or_false] at hcl
  rcases hcl with rfl | rfl
  · exact hexChar_mem _ (Nat.mod_lt _ (by norm_num))
  · exact hexChar_mem _ (Nat.mod_lt _ (by norm_num))

/-- Lowercasing fixes every hex digit character. -/
theorem hexDigits_toLower : ∀ c ∈ hexDigits, Char.toLower c = c := by decide

/-! ## Claim C5 -/

/-- Claim C5: `Block.make_id` is a pure, deterministic, total function on
byte sequences; it always returns a string of exactly 40 characters, each a
lowercase hexadecimal digit (and fixed by further lowercasing), and
identical inputs yield identical ids. -/
theorem make_id_spec (data : List Nat) :
    (make_id data).length = 40
    ∧ (∀ c ∈ (make_id data).data, c ∈ hexDigits ∧ Char.toLower c = c)
    ∧ (∀ data2 : List Nat, data = data2 → make_id data = make_id data2) := by
  refine ⟨?_, ?_, ?_⟩
  · show (pyStrLower (hexdigest (sha1 data))).length = 40
    simp only [pyStrLower, hexdigest, String.length, List.length_map,
      hexFlatten_length, sha1_length]
  · intro c hc
    simp only [make_id, pyStrLower, hexdigest, List.mem_map] at hc
    obtain ⟨c', hc', rfl⟩ := hc
    have hmem : c' ∈ hexDigits := hexFlatten_mem _ _ hc'
    refine ⟨?_, ?_⟩
    · rw [hexDigits_toLower c' hmem]; exact hmem
    · rw [hexDigits_toLower c' hmem, hexDigits_toLower c' hmem]
  · intro data2 h
    rw [h]

/-- Witness for C5 at the empty byte sequence (the SHA-1 of the empty
input). -/
theorem make_id_spec_witness :
    (make_id []).length = 40
    ∧ ((make_id []).data.getD 0 ' ' ∈ hexDigits
        ∧ Char.toLower ((make_id []).data.getD 0 ' ') = (make_id []).data.getD 0 ' ') :=
  ⟨(make_id_spec []).1,
   (make_id_spec []).2.1 ((make_id []).data.getD 0 ' ') (by decide)⟩

/-- Known-answer check: the id of the empty input is the SHA-1 of the empty
message. -/
theorem make_id_empty :
    make_id [] = "da39a3ee5e6b4b0d3255bfef95601890afd80709" := by decide

/-- Known-answer check: the id of `b"abc"`. -/
theorem make_id_abc :
    make_id [97, 98, 99] = "a9993e364706816aba3e25717850c26c9cd0d89d" := by decide

/-! ## Claim C7 -/

/-- Claim C7: assigning a new `input_stream` while the splitter is
`processing` raises `RuntimeError` and leaves the stream unchanged;
assigning while idle raises `TypeError` when the source lacks `read` or
`tell` (stream unchanged); assigning while idle with a source exposing both
replaces the stream. -/
theorem input_stream_set_spec (sp : FileSplitter) (io : PyStream) :
    (sp.state = some "processing" →
      input_stream_set sp io = (sp, some SplitterErr.runtimeErr))
    ∧ (sp.state = none → (io.hasRead = false ∨ io.hasTell = false) →
      input_stream_set sp io = (sp, some SplitterErr.typeErr))
    ∧ (sp.state = none → io.hasRead = true → io.hasTell = true →
      input_stream_set sp io = ({ sp with input_stream := io }, none)) := by
  refine ⟨?_, ?_, ?_⟩
  · intro h
    simp [input_stream_set, h]
  · intro h hcap
    rcases hcap with hc | hc <;>
      simp [input_stream_set, h, splitter_has_read, hc]
  · intro h h1 h2
    simp [input_stream_set, h, splitter_has_read, h1, h2]

/-- Witness for C7: a busy splitter rejects reassignment, an idle one
rejects a tell-less source and accepts a full one. -/
theorem input_stream_set_spec_witness :
    input_stream_set splitterBusy streamGood = (splitterBusy, some SplitterErr.runtimeErr)
    ∧ input_stream_set splitterIdle streamBad = (splitterIdle, some SplitterErr.typeErr)
    ∧ input_stream_set splitterIdle streamGood
        = ({ splitterIdle with input_stream := streamGood }, none) :=
  ⟨(input_stream_set_spec splitterBusy streamGood).1 (by decide),
   (input_stream_set_spec splitterIdle streamBad).2.1 (by decide) (by decide),
   (input_stream_set_spec splitterIdle streamGood).2.2 (by decide) (by decide) (by decide)⟩

/-! ## Claims C8 and C10 (the `Vault.status` property) -/

/-- One status assignment where a raise leaves the slot unchanged, as a
state transformer. -/
theorem vault_status_after_cons (v : Vault) (val : PyVal) (vals : List PyVal) :
    vault_status_after v (val :: vals)
      = vault_status_after
          (match vault_status_set v val with | .ok v' => v' | .error _ => v)
          vals := rfl

/-- A single status step preserves membership of the observed status in the
five accepted values. -/
theorem vault_status_step_mem (v : Vault) (val : PyVal)
    (hv : vault_status_get v ∈ vaultStatusValues) :
    vault_status_get
      (match vault_status_set v val with | .ok v' => v' | .error _ => v)
      ∈ vaultStatusValues := by
  cases val with
  | pynone => simp [vault_status_set, vault_status_get, vaultStatusValues]
  | pystr s =>
    by_cases h : pyStrLower s ∈ vaultStatusValues
    · simp [vault_status_set, h, vault_status_get]
    · simpa [vault_status_set, h] using hv
  | pyint n => simpa [vault_status_set] using hv

/-- The observed status stays within the five accepted values under any
sequence of assignments. -/
theorem vault_status_after_mem (vals : List PyVal) (v : Vault)
    (hv : vault_status_get v ∈ vaultStatusValues) :
    vault_status_get (vault_status_after v vals) ∈ vaultStatusValues := by
  induction vals generalizing v with
  | nil => exact hv
  | cons val rest ih =>
    rw [vault_status_after_cons]
    exact ih _ (vault_status_step_mem v val hv)

/-- Each accepted status value is fixed by lowercasing. -/
theorem vaultStatusValues_lower :
    ∀ s ∈ vaultStatusValues, pyStrLower s = s := by decide

/-- Claim C8 counterexample: the status setter accepts values outside the
enumeration instead of raising — the string `"Created"` is not one of the
five stored values yet is accepted (and lowercased), and the non-string
`None` is accepted as well. -/
theorem vault_status_counterexample :
    "Created" ∉ vaultStatusValues
    ∧ vault_status_set (vault_init "p" "v") (PyVal.pystr "Created")
        = .ok { vault_init "p" "v" with status := some "created" }
    ∧ vault_status_set (vault_init "p" "v") PyVal.pynone
        = .ok { vault_init "p" "v" with status := some "unknown" } := by
  refine ⟨by decide, ?_, ?_⟩
  · simp [vault_status_set, vault_init, show pyStrLower "Created" = "created" from by decide,
      vaultStatusValues]
  · simp [vault_status_set, vault_init]

/-- Claim C8 (amended): the status observed through the getter is `unknown`
immediately after construction; assigning a string whose lowercasing is not
one of the five accepted values, or a non-`None` non-string such as an
integer, raises `ValueError` and leaves the stored status unchanged
(`None` and case variants of accepted values are instead normalized and
stored); hence the observed status always lies in the enumeration. -/
theorem vault_status_enumeration (v : Vault) :
    vault_status_get (vault_init v.project_id v.vault_id) = "unknown"
    ∧ (∀ s : String, pyStrLower s ∉ vaultStatusValues →
        vault_status_set v (PyVal.pystr s) = .error "Invalid Vault Status Value")
    ∧ (∀ n : Int,
        vault_status_set v (PyVal.pyint n) = .error "Invalid Vault Status Value")
    ∧ (∀ val : PyVal, vault_status_set v val = .error "Invalid Vault Status Value" →
        vault_status_after v [val] = v)
    ∧ (∀ vals : List PyVal,
        vault_status_get
          (vault_status_after (vault_init v.project_id v.vault_id) vals)
          ∈ vaultStatusValues) := by
  refine ⟨rfl, ?_, ?_, ?_, ?_⟩
  · intro s hs
    simp [vault_status_set, hs]
  · intro n
    rfl
  · intro val hval
    rw [vault_status_after_cons, hval]
    rfl
  · intro vals
    exact vault_status_after_mem vals _
      (by simp [vault_status_get, vault_init, vaultStatusValues])


/-- Witness for the amended C8 at concrete inputs. -/
theorem vault_status_enumeration_witness :
    vault_status_set vaultA (PyVal.pystr "bogus") = .error "Invalid Vault Status Value"
    ∧ vault_status_after vaultA [PyVal.pystr "bogus"] = vaultA
    ∧ vault_status_get (vault_status_after (vault_init vaultA.project_id vaultA.vault_id)
        [PyVal.pystr "Created", PyVal.pystr "nonsense"]) ∈ vaultStatusValues := by
  have h := vault_status_enumeration vaultA
  exact ⟨h.2.1 "bogus" (by decide),
    h.2.2.2.1 (PyVal.pystr "bogus") (h.2.1 "bogus" (by decide)),
    h.2.2.2.2 [PyVal.pystr "Created", PyVal.pystr "nonsense"]⟩

/-- Claim C10: the setter normalizes its input — `None` stores `'unknown'`,
an accepted string is lowercased before storage (`'Created'` stores
`'created'`); under any sequence of assignments the getter returns only
lowercase enumeration strings, never `None`. -/
theorem vault_status_normalization (v : Vault) :
    vault_status_set v PyVal.pynone = .ok { v with status := some "unknown" }
    ∧ (∀ s : String, pyStrLower s ∈ vaultStatusValues →
        vault_status_set v (PyVal.pystr s) = .ok { v with status := some (pyStrLower s) })
    ∧ pyStrLower "Created" = "created"
    ∧ (∀ vals : List PyVal,
        vault_status_get (vault_status_after (vault_init v.project_id v.vault_id) vals)
            ∈ vaultStatusValues
        ∧ pyStrLower
            (vault_status_get (vault_status_after (vault_init v.project_id v.vault_id) vals))
          = vault_status_get (vault_status_after (vault_init v.project_id v.vault_id) vals)) := by
  refine ⟨rfl, ?_, by decide, ?_⟩
  · intro s hs
    simp [vault_status_set, hs]
  · intro vals
    have hmem := vault_status_after_mem vals (vault_init v.project_id v.vault_id)
      (by simp [vault_status_get, vault_init, vaultStatusValues])
    exact ⟨hmem, vaultStatusValues_lower _ hmem⟩

/-- Witness for C10: `'Created'` is accepted and stored lowercased. -/
theorem vault_status_normalization_witness :
    vault_status_set vaultA (PyVal.pystr "Created")
      = .ok { vaultA with status := some (pyStrLower "Created") }
    ∧ pyStrLower "Created" = "created"
    ∧ vault_status_get (vault_status_after (vault_init vaultA.project_id vaultA.vault_id)
        [PyVal.pynone, PyVal.pystr "VALID"]) ∈ vaultStatusValues := by
  have h := vault_status_normalization vaultA
  exact ⟨h.2.1 "Created" (by decide), h.2.2.1,
    (h.2.2.2 [PyVal.pynone, PyVal.pystr "VALID"]).1⟩

/-! ## Claim C6 (`get_blocks`) -/

/-- `get_blocks` always makes exactly `n` calls: its final reader state is
the state after `n` reads, and its result is the in-order filtering of those
`n` results. -/
theorem get_blocks_eq_filter {σ : Type} (step : σ → (Nat × Option Block) × σ) :
    ∀ (n : Nat) (s : σ),
      get_blocks step n s
        = ((splitterReads step n s).1.filter (fun p => p.2.isSome),
           (splitterReads step n s).2) := by
  intro n
  induction n with
  | zero => intro s; rfl
  | succ n ih =>
    intro s
    simp only [get_blocks, splitterReads, ih, List.filter_cons]
    cases h : ((step s).1.2).isSome <;> simp [h]

/-- Once a reader state yields end-of-stream and end-of-stream is absorbing,
`get_blocks` collects nothing from it. -/
theorem get_blocks_of_dead {σ : Type} (step : σ → (Nat × Option Block) × σ)
    (habs : ∀ t : σ, (step t).1.2 = none → (step (step t).2).1.2 = none) :
    ∀ (n : Nat) (s : σ), (step s).1.2 = none → (get_blocks step n s).1 = [] := by
  intro n
  induction n with
  | zero => intro s _; rfl
  | succ n ih =>
    intro s hs
    simp only [get_blocks]
    rw [hs]
    simpa using ih ((step s).2) (habs s hs)

/-- When end-of-stream is absorbing, filtering the fixed `n` reads returns
the same blocks as stopping at the first end-of-stream. -/
theorem get_blocks_eq_spec_of_absorbing {σ : Type}
    (step : σ → (Nat × Option Block) × σ)
    (habs : ∀ t : σ, (step t).1.2 = none → (step (step t).2).1.2 = none) :
    ∀ (n : Nat) (s : σ), (get_blocks step n s).1 = (get_blocks_spec step n s).1 := by
  intro n
  induction n with
  | zero => intro s; rfl
  | succ n ih =>
    intro s
    simp only [get_blocks, get_blocks_spec]
    cases h : (step s).1.2 with
    | none =>
      simpa using get_blocks_of_dead step habs n ((step s).2) (habs s h)
    | some b =>
      simp [ih]

/-- `splitterReads` produces one result per call. -/
theorem splitterReads_length {σ : Type} (step : σ → (Nat × Option Block) × σ) :
    ∀ (n : Nat) (s : σ), (splitterReads step n s).1.length = n := by
  intro n
  induction n with
  | zero => intro s; rfl
  | succ n ih =>
    intro s
    simp only [splitterReads, List.length_cons, ih]

/-- Claim C6 counterexample: with a source whose first read hits
end-of-stream but whose second read yields a block again, `get_blocks 2`
does not stop at the first end-of-stream — it performs the second read and
returns the block read past end-of-stream, where the claimed behaviour
(`get_blocks_spec`) stops after one read and returns nothing. -/
theorem get_blocks_counterexample :
    get_blocks stepX 2 0 = ([(5, some blockA)], 2)
    ∧ get_blocks_spec stepX 2 0 = ([], 1)
    ∧ (get_blocks stepX 2 0).1 ≠ (get_blocks_spec stepX 2 0).1 := by decide

/-- Claim C6 (amended): for every count `n` and every input source,
`get_blocks(n)` calls `get_block()` exactly `n` times — never stopping
early — and returns, in read order, the results of the calls that did not
report end-of-stream, never padding and with at most `n` blocks; whenever
end-of-stream is additionally absorbing for that source (once a read
returns no block, every later read also returns no block), the returned
list coincides with the stop-at-first-end-of-stream behaviour. -/
theorem get_blocks_behaviour {σ : Type} (step : σ → (Nat × Option Block) × σ)
    (n : Nat) (s : σ) :
    (splitterReads step n s).1.length = n
    ∧ get_blocks step n s
        = ((splitterReads step n s).1.filter (fun p => p.2.isSome),
           (splitterReads step n s).2)
    ∧ (get_blocks step n s).1.length ≤ n
    ∧ ((∀ t : σ, (step t).1.2 = none → (step (step t).2).1.2 = none) →
        (get_blocks step n s).1 = (get_blocks_spec step n s).1) := by
  refine ⟨splitterReads_length step n s, get_blocks_eq_filter step n s, ?_,
    fun habs => get_blocks_eq_spec_of_absorbing step habs n s⟩
  rw [get_blocks_eq_filter step n s]
  calc ((splitterReads step n s).1.filter (fun p => p.2.isSome)).length
      ≤ (splitterReads step n s).1.length := List.length_filter_le _ _
    _ = n := splitterReads_length step n s

/-- Witness for the amended C6: the unconditional call-count and filtering
facts at the non-absorbing source `stepX`, and the coincidence with the
stop-early behaviour at the absorbing one-block source `stepY`. -/
theorem get_blocks_behaviour_witness :
    get_blocks stepX 2 0
      = ((splitterReads stepX 2 0).1.filter (fun p => p.2.isSome),
         (splitterReads stepX 2 0).2)
    ∧ (get_blocks stepX 2 0).1.length ≤ 2
    ∧ (splitterReads stepY 3 0).1.length = 3
    ∧ (get_blocks stepY 3 0).1 = (get_blocks_spec stepY 3 0).1 := by
  have hX := get_blocks_behaviour stepX 2 0
  have hY := get_blocks_behaviour stepY 3 0
  refine ⟨hX.2.1, hX.2.2.1, hY.1, hY.2.2.2 ?_⟩
  intro t ht
  match t with
  | 0 => exact absurd ht (by decide)
  | t + 1 => rfl

/-! ## Validation-stage lemmas for `AssignBlocksToFile` -/

/-- Unfolding of the validation stage in explicit-pairs mode, once the file
is known to be in the vault. -/
theorem validateAssign_explicit (v : Vault) (file_id : String) (f : File)
    (pairs : List (String × Nat)) (hf : dlookup v.files file_id = some f) :
    validateAssign (.vaultArg v) file_id (some pairs)
      = if pairs.length = 0 then some AssignError.emptyBlockIds
        else validatePairs v f pairs := by
  simp only [validateAssign, hf]

/-- Unfolding of the validation stage in derive-from-file mode, once the
file is known to be in the vault. -/
theorem validateAssign_derive (v : Vault) (file_id : String) (f : File)
    (hf : dlookup v.files file_id = some f) :
    validateAssign (.vaultArg v) file_id none
      = if f.offsets.length = 0 then some AssignError.fileOffsetsEmpty
        else if f.blocks.length = 0 then some AssignError.fileBlocksEmpty
        else validateOffsets f f.offsets := by
  simp only [validateAssign, hf]

/-- A pair passes the four nested checks exactly when all four conditions
hold. -/
theorem checkPair_eq_none_iff (v : Vault) (f : File) (p : String × Nat) :
    checkPair v f p = none ↔
      dmem v.blocks p.1 = true ∧ dmem f.blocks p.1 = true
        ∧ dmem f.offsets p.2 = true ∧ dlookup f.offsets p.2 = some p.1 := by
  cases h1 : dmem v.blocks p.1
  · simp [checkPair, h1]
  · cases h2 : dmem f.blocks p.1
    · simp [checkPair, h1, h2]
    · cases h3 : dmem f.offsets p.2
      · simp [checkPair, h1, h2, h3]
      · by_cases h4 : dlookup f.offsets p.2 = some p.1
        · simp [checkPair, h1, h2, h3, h4]
        · simp [checkPair, h1, h2, h3, h4]

/-- The explicit-pairs loop accepts exactly when every pair passes its
checks. -/
theorem validatePairs_eq_none_iff (v : Vault) (f : File) :
    ∀ pairs : List (String × Nat),
      validatePairs v f pairs = none ↔ ∀ p ∈ pairs, checkPair v f p = none := by
  intro pairs
  induction pairs with
  | nil => simp [validatePairs]
  | cons p rest ih =>
    simp only [validatePairs]
    cases h : checkPair v f p <;> simp [h, ih]

/-- The derive-mode loop accepts exactly when no offset entry dangles. -/
theorem validateOffsets_eq_none_iff (f : File) :
    ∀ l : List (Nat × String),
      validateOffsets f l = none ↔ ∀ ob ∈ l, dmem f.blocks ob.2 = true := by
  intro l
  induction l with
  | nil => simp [validateOffsets]
  | cons ob rest ih =>
    cases h : dmem f.blocks ob.2
    · simp [validateOffsets, h]
    · simp [validateOffsets, h, ih]

/-- Any error of the derive-mode loop is a dangling-offset error naming a
block id that some offset references but the block dict lacks. -/
theorem validateOffsets_error (f : File) :
    ∀ (l : List (Nat × String)) (e : AssignError), validateOffsets f l = some e →
      ∃ bid, e = AssignError.danglingOffset bid ∧ dmem f.blocks bid = false
        ∧ bid ∈ l.map Prod.snd := by
  intro l
  induction l with
  | nil => intro e he; simp [validateOffsets] at he
  | cons ob rest ih =>
    intro e he
    cases h : dmem f.blocks ob.2
    · simp only [validateOffsets, h] at he
      simp only [reduceIte, Option.some.injEq] at he
      exact ⟨ob.2, he.symm, h, by simp⟩
    · simp only [validateOffsets, h] at he
      obtain ⟨bid, hbid, hmem, hin⟩ := ih e he
      exact ⟨bid, hbid, hmem, by simp [hin]⟩

/-- Full characterization of a successful explicit-pairs validation. -/
theorem validateAssign_explicit_none_iff (v : Vault) (file_id : String)
    (f : File) (pairs : List (String × Nat))
    (hf : dlookup v.files file_id = some f) :
    validateAssign (.vaultArg v) file_id (some pairs) = none ↔
      pairs ≠ []
      ∧ ∀ p ∈ pairs, dmem v.blocks p.1 = true ∧ dmem f.blocks p.1 = true
          ∧ dmem f.offsets p.2 = true ∧ dlookup f.offsets p.2 = some p.1 := by
  rw [validateAssign_explicit v file_id f pairs hf]
  rcases pairs with _ | ⟨p, rest⟩
  · simp
  · simp [validatePairs_eq_none_iff, checkPair_eq_none_iff]

/-- Full characterization of a successful derive-from-file validation. -/
theorem validateAssign_derive_none_iff (v : Vault) (file_id : String)
    (f : File) (hf : dlookup v.files file_id = some f) :
    validateAssign (.vaultArg v) file_id none = none ↔
      f.offsets ≠ [] ∧ f.blocks ≠ []
        ∧ ∀ ob ∈ f.offsets, dmem f.blocks ob.2 = true := by
  rw [validateAssign_derive v file_id f hf]
  rcases ho : f.offsets with _ | ⟨ob, orest⟩
  · simp
  · rcases hb : f.blocks with _ | ⟨bb, brest⟩
    · simp
    · rw [← ho, ← hb]
      rw [if_neg (by simp [ho]), if_neg (by simp [hb])]
      simp [validateOffsets_eq_none_iff, ho, hb]

/-- The payload helper succeeds on any block id present in the file's block
dict, yielding the entry whose size is read from that dict. -/
theorem entryFor_eq (f : File) (bid : String) (off : Nat)
    (h : dmem f.blocks bid = true) :
    entryFor f bid off = some ⟨bid, off, entrySize f bid⟩ := by
  unfold dmem at h
  obtain ⟨blk, hblk⟩ := Option.isSome_iff_exists.mp h
  simp [entryFor, entrySize, hblk]

/-- Sequencing a fallible function is plain mapping once every element
succeeds. -/
theorem mapOption_eq_map_of_some {α β : Type} (g : α → Option β) (d : α → β) :
    ∀ l : List α, (∀ a ∈ l, g a = some (d a)) → mapOption g l = some (l.map d) := by
  intro l
  induction l with
  | nil => intro _; rfl
  | cons a rest ih =>
    intro h
    simp [mapOption, h a (List.mem_cons_self a rest),
      ih (fun x hx => h x (List.mem_cons_of_mem a hx))]

/-- Payload construction in explicit-pairs mode: one entry per pair, in
caller order. -/
theorem buildPayload_explicit (f : File) (pairs : List (String × Nat))
    (h : ∀ p ∈ pairs, dmem f.blocks p.1 = true) :
    buildPayload f (some pairs)
      = some (pairs.map (fun p => (⟨p.1, p.2, entrySize f p.1⟩ : AssignEntry))) := by
  unfold buildPayload
  exact mapOption_eq_map_of_some _ _ pairs (fun p hp => entryFor_eq f p.1 p.2 (h p hp))

/-- Payload construction in derive-from-file mode: one entry per offset
dict entry. -/
theorem buildPayload_derive (f : File)
    (h : ∀ ob ∈ f.offsets, dmem f.blocks ob.2 = true) :
    buildPayload f none
      = some (f.offsets.map (fun ob => (⟨ob.2, ob.1, entrySize f ob.2⟩ : AssignEntry))) := by
  unfold buildPayload
  exact mapOption_eq_map_of_some _ _ f.offsets (fun ob hob => entryFor_eq f ob.2 ob.1 (h ob hob))

/-! ## Claim C1 -/

/-- Claim C1: with an explicit pair list, an empty list raises the
input-validation error; otherwise validation succeeds exactly when every
pair satisfies all four conditions, each pair is checked in list order, and
the four conditions are checked in the stated order with the stated error
kinds. -/
theorem AssignBlocksToFile_explicit_validation (v : Vault) (file_id : String)
    (f : File) (pairs : List (String × Nat))
    (hf : dlookup v.files file_id = some f) :
    validateAssign (.vaultArg v) file_id (some []) = some AssignError.emptyBlockIds
    ∧ (validateAssign (.vaultArg v) file_id (some pairs) = none ↔
        pairs ≠ []
        ∧ ∀ p ∈ pairs, dmem v.blocks p.1 = true ∧ dmem f.blocks p.1 = true
            ∧ dmem f.offsets p.2 = true ∧ dlookup f.offsets p.2 = some p.1)
    ∧ (∀ bid off, dmem v.blocks bid = false →
        checkPair v f (bid, off) = some (AssignError.blockNotInVault bid))
    ∧ (∀ bid off, dmem v.blocks bid = true → dmem f.blocks bid = false →
        checkPair v f (bid, off) = some (AssignError.blockNotInFile bid))
    ∧ (∀ bid off, dmem v.blocks bid = true → dmem f.blocks bid = true →
        dmem f.offsets off = false →
        checkPair v f (bid, off) = some (AssignError.offsetNotAssigned off))
    ∧ (∀ bid off, dmem v.blocks bid = true → dmem f.blocks bid = true →
        dmem f.offsets off = true → dlookup f.offsets off ≠ some bid →
        checkPair v f (bid, off) = some (AssignError.offsetBlockMismatch off bid))
    ∧ (∀ (p : String × Nat) (rest : List (String × Nat)),
        validatePairs v f (p :: rest)
          = match checkPair v f p with
            | some e => some e
            | none => validatePairs v f rest)
    ∧ (pairs ≠ [] →
        validateAssign (.vaultArg v) file_id (some pairs) = validatePairs v f pairs) := by
  refine ⟨?_, ?_, ?_, ?_, ?_, ?_, ?_, ?_⟩
  · rw [validateAssign_explicit v file_id f [] hf]
    simp
  · exact validateAssign_explicit_none_iff v file_id f pairs hf
  · intro bid off h1
    simp [checkPair, h1]
  · intro bid off h1 h2
    simp [checkPair, h1, h2]
  · intro bid off h1 h2 h3
    simp [checkPair, h1, h2, h3]
  · intro bid off h1 h2 h3 h4
    simp [checkPair, h1, h2, h3, h4]
  · intro p rest
    rfl
  · intro hne
    rw [validateAssign_explicit v file_id f pairs hf,
      if_neg (fun h => hne (List.length_eq_zero.mp h))]

/-- Witness for C1 at concrete inputs: the empty list is rejected, a fully
consistent pair passes, and a pair whose block is not in the vault fails
with the block-not-in-vault kind. -/
theorem AssignBlocksToFile_explicit_validation_witness :
    validateAssign (.vaultArg vaultA) "f1" (some []) = some AssignError.emptyBlockIds
    ∧ validateAssign (.vaultArg vaultA) "f1" (some [("bidA", 0)]) = none
    ∧ checkPair vaultA fileA ("nope", 0) = some (AssignError.blockNotInVault "nope") := by
  have h := AssignBlocksToFile_explicit_validation vaultA "f1" fileA [("bidA", 0)] (by decide)
  exact ⟨h.1, h.2.1.mpr (by decide), h.2.2.1 "nope" 0 (by decide)⟩

/-! ## Claim C2 -/

/-- Claim C2: with no explicit pairs, an empty offset map or an empty block
map raises a caller error; otherwise validation succeeds exactly when no
offset entry references a block id missing from the file's block map, and
any failure is a dangling-offset error naming such a block id. -/
theorem AssignBlocksToFile_derive_validation (v : Vault) (file_id : String)
    (f : File) (hf : dlookup v.files file_id = some f) :
    (f.offsets = [] →
      validateAssign (.vaultArg v) file_id none = some AssignError.fileOffsetsEmpty)
    ∧ (f.offsets ≠ [] → f.blocks = [] →
      validateAssign (.vaultArg v) file_id none = some AssignError.fileBlocksEmpty)
    ∧ (validateAssign (.vaultArg v) file_id none = none ↔
        f.offsets ≠ [] ∧ f.blocks ≠ []
          ∧ ∀ ob ∈ f.offsets, dmem f.blocks ob.2 = true)
    ∧ (∀ e : AssignError, f.offsets ≠ [] → f.blocks ≠ [] →
        validateAssign (.vaultArg v) file_id none = some e →
        ∃ bid, e = AssignError.danglingOffset bid ∧ dmem f.blocks bid = false
          ∧ bid ∈ f.offsets.map Prod.snd) := by
  refine ⟨?_, ?_, ?_, ?_⟩
  · intro h
    rw [validateAssign_derive v file_id f hf]
    simp [h]
  · intro ho hb
    rw [validateAssign_derive v file_id f hf,
      if_neg (fun h => ho (List.length_eq_zero.mp h))]
    simp [hb]
  · exact validateAssign_derive_none_iff v file_id f hf
  · intro e ho hb he
    rw [validateAssign_derive v file_id f hf,
      if_neg (fun h => ho (List.length_eq_zero.mp h)),
      if_neg (fun h => hb (List.length_eq_zero.mp h))] at he
    exact validateOffsets_error f f.offsets e he

/-- Witness for C2 at concrete inputs: an empty file is rejected with the
empty-offsets error; a consistent file passes. -/
theorem AssignBlocksToFile_derive_validation_witness :
    validateAssign (.vaultArg vaultE) "fe" none = some AssignError.fileOffsetsEmpty
    ∧ validateAssign (.vaultArg vaultA) "f1" none = none := by
  have he := AssignBlocksToFile_derive_validation vaultE "fe" fileE (by decide)
  have ha := AssignBlocksToFile_derive_validation vaultA "f1" fileA (by decide)
  exact ⟨he.1 (by decide), ha.2.2.1.mpr (by decide)⟩

/-! ## Claim C3 -/

/-- Claim C3: after validation passes, the wire payload is exactly one
entry per explicit pair (in caller order) or one entry per offset-map
entry, each entry being `{id, offset, size = len(file.blocks[id])}`; in the
derive-from-file case the entry count equals the offset map's size. -/
theorem AssignBlocksToFile_payload (v : Vault) (file_id : String) (f : File)
    (block_ids : Option (List (String × Nat)))
    (hf : dlookup v.files file_id = some f)
    (hok : validateAssign (.vaultArg v) file_id block_ids = none) :
    buildPayload f block_ids
      = some (match block_ids with
          | some pairs =>
            pairs.map (fun (p : String × Nat) => (⟨p.1, p.2, entrySize f p.1⟩ : AssignEntry))
          | none =>
            f.offsets.map (fun (ob : Nat × String) => (⟨ob.2, ob.1, entrySize f ob.2⟩ : AssignEntry)))
    ∧ (match block_ids with
          | some pairs =>
            pairs.map (fun (p : String × Nat) => (⟨p.1, p.2, entrySize f p.1⟩ : AssignEntry))
          | none =>
            f.offsets.map (fun (ob : Nat × String) => (⟨ob.2, ob.1, entrySize f ob.2⟩ : AssignEntry))).length
        = (match block_ids with
          | some pairs => pairs.length
          | none => f.offsets.length) := by
  rcases block_ids with _ | pairs
  · have hcond := (validateAssign_derive_none_iff v file_id f hf).mp hok
    exact ⟨buildPayload_derive f hcond.2.2, by simp⟩
  · have hcond := (validateAssign_explicit_none_iff v file_id f pairs hf).mp hok
    exact ⟨buildPayload_explicit f pairs (fun p hp => (hcond.2 p hp).2.1), by simp⟩

/-- Witness for C3: the payload derived from `fileA`'s offset map. -/
theorem AssignBlocksToFile_payload_witness :
    buildPayload fileA none
      = some (fileA.offsets.map (fun ob => (⟨ob.2, ob.1, entrySize fileA ob.2⟩ : AssignEntry)))
    ∧ (fileA.offsets.map (fun ob => (⟨ob.2, ob.1, entrySize fileA ob.2⟩ : AssignEntry))).length
        = fileA.offsets.length :=
  AssignBlocksToFile_payload vaultA "f1" fileA none (by decide) (by decide)

/-! ## Claim C4 -/

/-- Claim C4: whenever the validation stage fails, `AssignBlocksToFile`
raises that error with no network request issued and the vault object —
hence its registries and the file's block and offset maps — unchanged. -/
theorem AssignBlocksToFile_no_network_on_invalid
    (server : List AssignEntry → ServerResp) (arg : PyArg) (file_id : String)
    (block_ids : Option (List (String × Nat))) (e : AssignError)
    (hv : validateAssign arg file_id block_ids = some e) :
    (AssignBlocksToFile server arg file_id block_ids).networkCalled = false
    ∧ (AssignBlocksToFile server arg file_id block_ids).vaultAfter = arg
    ∧ (AssignBlocksToFile server arg file_id block_ids).result
        = .error (.validationError e) := by
  refine ⟨?_, ?_, ?_⟩ <;> simp [AssignBlocksToFile, hv]

/-- Witness for C4: a non-vault first argument fails with no network call
and no state change. -/
theorem AssignBlocksToFile_no_network_on_invalid_witness :
    (AssignBlocksToFile server200 PyArg.nonVault "f1" none).networkCalled = false
    ∧ (AssignBlocksToFile server200 PyArg.nonVault "f1" none).vaultAfter = PyArg.nonVault
    ∧ (AssignBlocksToFile server200 PyArg.nonVault "f1" none).result
        = .error (.validationError AssignError.vaultTypeError) :=
  AssignBlocksToFile_no_network_on_invalid server200 PyArg.nonVault "f1" none
    AssignError.vaultTypeError (by decide)

/-! ## Claim C9 -/

/-- Claim C9: a block whose `data` is absent has `len` 0, so a validated
payload entry for a block known only by id reports size 0 instead of
failing. -/
theorem AssignBlocksToFile_dataless_size (v : Vault) (file_id : String)
    (f : File) (off : Nat) (bid : String) (blk : Block)
    (hf : dlookup v.files file_id = some f)
    (hok : validateAssign (.vaultArg v) file_id none = none)
    (hob : (off, bid) ∈ f.offsets)
    (hb : dlookup f.blocks bid = some blk)
    (hd : blk.data = none) :
    pyLen blk = 0
    ∧ entrySize f bid = 0
    ∧ buildPayload f none
        = some (f.offsets.map (fun ob => (⟨ob.2, ob.1, entrySize f ob.2⟩ : AssignEntry)))
    ∧ (⟨bid, off, 0⟩ : AssignEntry)
        ∈ f.offsets.map (fun ob => (⟨ob.2, ob.1, entrySize f ob.2⟩ : AssignEntry)) := by
  have h1 : pyLen blk = 0 := by simp [pyLen, hd]
  have h2 : entrySize f bid = 0 := by simp [entrySize, hb, h1]
  have hcond := (validateAssign_derive_none_iff v file_id f hf).mp hok
  refine ⟨h1, h2, buildPayload_derive f hcond.2.2, ?_⟩
  exact List.mem_map.mpr ⟨(off, bid), hob, by simp [h2]⟩

/-- Witness for C9: `blockB` is known only by id and its entry in the
payload derived from `fileA` has size 0. -/
theorem AssignBlocksToFile_dataless_size_witness :
    pyLen blockB = 0
    ∧ entrySize fileA "bidB" = 0
    ∧ buildPayload fileA none
        = some (fileA.offsets.map (fun ob => (⟨ob.2, ob.1, entrySize fileA ob.2⟩ : AssignEntry)))
    ∧ (⟨"bidB", 3, 0⟩ : AssignEntry)
        ∈ fileA.offsets.map (fun ob => (⟨ob.2, ob.1, entrySize fileA ob.2⟩ : AssignEntry)) :=
  AssignBlocksToFile_dataless_size vaultA "f1" fileA 3 "bidB" blockB
    (by decide) (by decide) (by decide) (by decide) (by decide)

end DeuceModel

